import Mathlib

/-!
Verification development for the `seo_scanner` repository (file `src/seo.py`).

The program is a sequential SEO scanner: `sitemap_scan` populates a mutable
dictionary with sitemap/robots facts, `seo_scan` audits a fixed page list, and
`scan` composes the two.  We shallowly embed the program: the mutable Python
dict becomes an association list of `PyVal`s, HTTP and the markup parser become
an explicit environment of pure functions (the spec treats them as external
collaborators), and Python exceptions (`KeyError`, unbound locals, uncaught
network errors) become an `Except PyError` result.  Every definition below is
translated line-by-line from `src/seo.py`; the one definition translated from
the spec's words instead is marked as such in its doc comment.
-/

namespace Seo

/-- Python values that the scanner stores in its result dictionary. -/
inductive PyVal where
  | pyNone
  | bool (b : Bool)
  | int (n : Int)
  | str (s : String)
  | rat (q : ℚ)
  | list (xs : List String)
  | dict (entries : List (String × Bool))
  | pageEntry (title : String) (descTag : Option (Option String)) (date : Option String)
deriving DecidableEq

/-- The scanner's result record: a Python dict with string keys. -/
abbrev Dict := List (String × PyVal)

/-- Dictionary lookup, `d[k]` read side: `none` models a `KeyError`. -/
def dget? (d : Dict) (k : String) : Option PyVal :=
  match d with
  | [] => none
  | (k1, v1) :: rest => if k1 = k then some v1 else dget? rest k

/-- Dictionary update `d[k] = v`: replaces the first binding of `k` or appends. -/
def dset (d : Dict) (k : String) (v : PyVal) : Dict :=
  match d with
  | [] => [(k, v)]
  | (k1, v1) :: rest => if k1 = k then (k, v) :: rest else (k1, v1) :: dset rest k v

/-- Python truthiness of a stored value. -/
def pyTruthy : PyVal → Bool
  | PyVal.pyNone => false
  | PyVal.bool b => b
  | PyVal.int n => decide (n ≠ 0)
  | PyVal.str s => decide (s ≠ "")
  | PyVal.rat q => decide (q ≠ 0)
  | PyVal.list xs => decide (xs ≠ [])
  | PyVal.dict es => decide (es ≠ [])
  | PyVal.pageEntry _ _ _ => true

/-- Whether key `k` is present and truthy in `d` (Python `if d[k]:` with the
lookup known to succeed). -/
def truthyAt (d : Dict) (k : String) : Bool :=
  match dget? d k with
  | some v => pyTruthy v
  | none => false

/-- Python exceptions that can escape the scanner's functions. -/
inductive PyError where
  | keyError (k : String)
  | nameError (n : String)
  | typeError
  | valueError
  | netError (msg : String)
deriving DecidableEq

/-- Parse a nonempty run of decimal digits. -/
def digitsVal : List Char → Nat → Option Nat
  | [], acc => some acc
  | c :: cs, acc => if c.isDigit then digitsVal cs (acc * 10 + (c.toNat - 48)) else none

/-- Python `int(s)` on a string: an optional sign followed by digits, a
`ValueError` otherwise. -/
def pyStrToInt (s : String) : Option Int :=
  match s.toList with
  | [] => none
  | '-' :: [] => none
  | '-' :: cs => (digitsVal cs 0).map (fun n => -(n : Int))
  | cs => (digitsVal cs 0).map (fun n => (n : Int))

/-- Python `int(v)` as used on dict values. -/
def pyInt : PyVal → Except PyError Int
  | PyVal.int n => Except.ok n
  | PyVal.bool b => Except.ok (if b then 1 else 0)
  | PyVal.str s =>
      match pyStrToInt s with
      | some n => Except.ok n
      | none => Except.error PyError.valueError
  | _ => Except.error PyError.typeError

/-- Python `v + n` for a dict value `v` and an int `n`. -/
def pyAddNat (v : PyVal) (n : Nat) : Except PyError PyVal :=
  match v with
  | PyVal.int m => Except.ok (PyVal.int (m + n))
  | PyVal.bool b => Except.ok (PyVal.int ((if b then 1 else 0) + n))
  | _ => Except.error PyError.typeError

/-- Python `loc != v` where `loc` is a string and `v` a dict value
(values of different types compare unequal). -/
def pyStrNe (loc : String) (v : PyVal) : Bool :=
  match v with
  | PyVal.str t => loc != t
  | _ => true

/-- Python `len(l) != len(set(l))`: the list contains a repeated value. -/
def hasDup (l : List String) : Bool := l.length != l.dedup.length

/-- Write `True` under key `w` into a warnings dict. -/
def wset (es : List (String × Bool)) (w : String) : List (String × Bool) :=
  match es with
  | [] => [(w, true)]
  | (k, b) :: rest => if k = w then (w, true) :: rest else (k, b) :: wset rest w

/-- An HTTP response as consumed by the scanner: `status_code`, the
post-redirect `url`, and the body `text`. -/
structure Response where
  status_code : Nat
  url : String
  text : String

/-- Outcome of `requests.get`: a response, or a raised network exception. -/
inductive FetchResult where
  | resp (r : Response)
  | exc (msg : String)

/-- The facts the scanner extracts from a parsed sitemap body: the text of
each `url` element, whether a `sitemapindex` root is present, and the
`sitemap > loc` texts. -/
structure SitemapDoc where
  urlTexts : List String
  hasSitemapIndex : Bool
  indexLocs : List String

/-- The facts the scanner extracts from a parsed HTML page.  A tag lookup is
an outer `Option` (is the tag present) and, for meta tags, an inner `Option`
(does it carry a `content` attribute). -/
structure PageDoc where
  title : Option String
  descriptionTag : Option (Option String)
  publishedTime : Option (Option String)
  modifiedTime : Option (Option String)
  dcDate : Option (Option String)
  hasMain : Bool
  hasRoleMain : Bool
  hasSearchInput : Bool
  hasSearchClass : Bool

/-- The external collaborators: the HTTP client, the markup parser (applied to
sitemap bodies and to page bodies), and the `builtwith` platform fingerprint
service (`some` iff the report has a `web-frameworks` entry). -/
structure Env where
  get : String → FetchResult
  parseSitemap : String → SitemapDoc
  parsePage : String → PageDoc
  builtwith : String → Option (List String)

/-- A token of the two regular expressions the scanner uses: a character that
may appear in either of two given forms, or a literal run. -/
inductive Tok where
  | alt (a b : Char)
  | lit (s : String)

/-- Strip an expected literal character run from the front of the input. -/
def stripPre : List Char → List Char → Option (List Char)
  | [], cs => some cs
  | _ :: _, [] => none
  | l :: ls, c :: cs => if c = l then stripPre ls cs else none

/-- Match a token sequence at the head of the input, returning the remainder. -/
def matchToks : List Tok → List Char → Option (List Char)
  | [], cs => some cs
  | Tok.alt _ _ :: _, [] => none
  | Tok.alt a b :: ts, c :: cs => if c = a ∨ c = b then matchToks ts cs else none
  | Tok.lit s :: ts, cs =>
      match stripPre s.toList cs with
      | some rest => matchToks ts rest
      | none => none

/-- The `(.*)` capture of the regexes: everything up to (not including) the
next newline, together with the unconsumed remainder. -/
def takeLine : List Char → List Char × List Char
  | [] => ([], [])
  | c :: cs =>
      if c = '\n' then ([], c :: cs)
      else
        let p := takeLine cs
        (c :: p.1, p.2)

/-- Fuelled scan implementing `re.findall(pat ++ "(.*)", text)` for the
patterns used by the scanner: leftmost, non-overlapping matches, each capture
running to the end of its line. -/
def findallAux (pat : List Tok) : Nat → List Char → List String
  | 0, _ => []
  | _ + 1, [] => []
  | n + 1, c :: cs =>
      match matchToks pat (c :: cs) with
      | some rest =>
          let p := takeLine rest
          String.mk p.1 :: findallAux pat n p.2
      | none => findallAux pat n cs

/-- `re.findall` over a string, with fuel equal to the string length (every
step of `findallAux` strictly shrinks the input, so this fuel suffices). -/
def pyFindall (pat : List Tok) (s : String) : List String :=
  findallAux pat s.toList.length s.toList

/-- The pattern of `re.findall('[cC]rawl-[dD]elay: (.*)', ...)` (line 126):
only the first letter of each word is case-insensitive. -/
def cdPat : List Tok := [Tok.alt 'c' 'C', Tok.lit "rawl-", Tok.alt 'd' 'D', Tok.lit "elay: "]

/-- The pattern of `re.findall('[sS]itemap: (.*)', ...)` (line 129). -/
def smPat : List Tok := [Tok.alt 's' 'S', Tok.lit "itemap: "]

/-- Make every character of a word case-insensitive. -/
def ciToks (s : String) : List Tok := s.toList.map (fun c => Tok.alt c.toLower c.toUpper)

/-- Modelled from the spec: crawl-delay line matching that is case-insensitive
on the whole of the words "crawl" and "delay", as the spec sentence
"case-insensitive on \"crawl\"/\"delay\"" reads; used only to compare the
spec's reading with the code's actual pattern `cdPat`. -/
def specFindallCD (s : String) : List String := pyFindall (ciToks "crawl-delay: ") s

/-- Whether the character run `p` occurs contiguously inside `l`. -/
def listHasRun (p : List Char) : List Char → Bool
  | [] => p.isEmpty
  | c :: cs => p.isPrefixOf (c :: cs) || listHasRun p cs

/-- Python `'.pdf' in text`. -/
def containsPdf (t : String) : Bool := listHasRun ".pdf".toList t.toList

/-- Suffix test on strings, used to state what URL the robots step requests. -/
def strEndsWith (s suffix : String) : Bool := suffix.toList.isSuffixOf s.toList

/-- The error string of line 93:
`"Could not get data from %s/sitemap.xml: %s" % (fqd, error)`. -/
def smErr (fqd msg : String) : String :=
  "Could not get data from " ++ fqd ++ "/sitemap.xml: " ++ msg

/-- The per-page error string of line 242:
`"Could not get data from %s%s: %s" % (fqd, page, error)`. -/
def pageErr (fqd page msg : String) : String :=
  "Could not get data from " ++ fqd ++ page ++ ": " ++ msg

/-- The module-level `scan_data` record (lines 50 to 69), including the two
page keys appended by the loop over `pages`. -/
def scan_data : Dict :=
  [("Platforms", PyVal.pyNone),
   ("Sitemap status code", PyVal.pyNone),
   ("Sitemap final url", PyVal.pyNone),
   ("Sitemap items", PyVal.int 0),
   ("PDFs in sitemap", PyVal.int 0),
   ("Sitemaps from index", PyVal.list []),
   ("Robots.txt", PyVal.pyNone),
   ("Crawl delay", PyVal.pyNone),
   ("Sitemaps from robots", PyVal.list []),
   ("Total URLs", PyVal.int 0),
   ("Est time to index", PyVal.str "Unknown"),
   ("Main tags found", PyVal.pyNone),
   ("Search found", PyVal.pyNone),
   ("Pages", PyVal.pyNone),
   ("Warnings", PyVal.pyNone),
   ("/", PyVal.pyNone),
   ("/privacy", PyVal.pyNone)]

/-- The fixed page list (lines 43 to 46). -/
def pages : List String := ["/", "/privacy"]

/-- Lines 88 to 96: fetch `{fqd}/sitemap.xml`; on success record status code
and final URL, on a raised exception record the error string.  The first
component models the local variable `sitemap`, unbound when the fetch raised. -/
def sitemapFetchStep (env : Env) (fqd : String) (d : Dict) : Option Response × Dict :=
  match env.get (fqd ++ "/sitemap.xml") with
  | FetchResult.resp r =>
      (some r, dset (dset d "status_code" (PyVal.int r.status_code)) "final_url" (PyVal.str r.url))
  | FetchResult.exc msg =>
      (none, dset d "status_code" (PyVal.str (smErr fqd msg)))

/-- Line 106 to 107: record the count of url entries whose text contains
".pdf", but only when the url list is nonempty. -/
def pdfWrite (doc : SitemapDoc) (d : Dict) : Dict :=
  if doc.urlTexts.isEmpty then d
  else dset d "pdfs_in_urls" (PyVal.int (doc.urlTexts.filter containsPdf).length)

/-- Lines 109 to 110: when the root is a sitemap index, record every
`sitemap > loc` value. -/
def indexWrite (doc : SitemapDoc) (d : Dict) : Dict :=
  if doc.hasSitemapIndex then dset d "sitemap_locations_from_index" (PyVal.list doc.indexLocs)
  else d

/-- Lines 98 to 110: when the primary sitemap came back OK, parse it and
record `url_tag_count`, the PDF count and any sitemap-index locations. -/
def sitemapParseStep (env : Env) (r : Response) (d : Dict) : Dict :=
  if r.status_code = 200 then
    indexWrite (env.parseSitemap r.text)
      (pdfWrite (env.parseSitemap r.text)
        (dset d "url_tag_count" (PyVal.int (env.parseSitemap r.text).urlTexts.length)))
  else d

/-- Line 117: the URL the robots.txt step actually requests. -/
def robotsFetchUrl (fqd : String) : String := fqd ++ "/sitemap.xml"

/-- Lines 126 to 128: record the first crawl-delay match, if any. -/
def crawlDelayWrite (d : Dict) (body : String) : Dict :=
  match pyFindall cdPat body with
  | [] => d
  | c :: _ => dset d "crawl_delay" (PyVal.str c)

/-- Lines 115 to 133: the robots.txt step.  A raised fetch exception is caught
and nothing is recorded; an OK response records `robots = "OK"`, the first
crawl-delay match and all sitemap declarations; otherwise the status code is
recorded. -/
def robotsStep (env : Env) (fqd : String) (d : Dict) : Dict :=
  match env.get (robotsFetchUrl fqd) with
  | FetchResult.exc _ => d
  | FetchResult.resp robots =>
      if robots.status_code = 200 then
        dset (crawlDelayWrite (dset d "robots" (PyVal.str "OK")) robots.text)
          "sitemap_locations_from_robotstxt" (PyVal.list (pyFindall smPat robots.text))
      else dset d "robots" (PyVal.int robots.status_code)

/-- Python `for loc in results[k]`: looking up a missing key raises
`KeyError`, and the stored value must be the list the code put there. -/
def pyIterList (d : Dict) (k : String) : Except PyError (List String) :=
  match dget? d k with
  | none => Except.error (PyError.keyError k)
  | some (PyVal.list xs) => Except.ok xs
  | some _ => Except.error PyError.typeError

/-- Lines 139 to 152 (one of the two identical loops): for each location not
equal to `results['final_url']`, fetch it (a raised exception is NOT caught
here and aborts the scan) and, when OK, add its url count to the tally. -/
def childAgg (env : Env) (d : Dict) : List String → Nat → Except PyError Nat
  | [], acc => Except.ok acc
  | loc :: rest, acc =>
      match dget? d "final_url" with
      | none => Except.error (PyError.keyError "final_url")
      | some fv =>
          if pyStrNe loc fv then
            match env.get loc with
            | FetchResult.exc msg => Except.error (PyError.netError msg)
            | FetchResult.resp r =>
                childAgg env d rest
                  (if r.status_code = 200 then acc + (env.parseSitemap r.text).urlTexts.length
                   else acc)
          else childAgg env d rest acc

/-- The trace of URLs the child-sitemap loop passes to `requests.get`
(instrumentation of `childAgg`: same control flow, records the fetched URLs,
stopping where a raised fetch exception would abort the loop). -/
def childFetches (env : Env) (d : Dict) : List String → List String
  | [] => []
  | loc :: rest =>
      match dget? d "final_url" with
      | none => []
      | some fv =>
          if pyStrNe loc fv then
            match env.get loc with
            | FetchResult.exc _ => [loc]
            | FetchResult.resp _ => loc :: childFetches env d rest
          else childFetches env d rest

/-- Lines 137 to 153: run the child loop over `sitemap_locations_from_index`
and then over `sitemap_locations_from_robotstxt` (each key read raising
`KeyError` when absent) and add the tally onto `Total URLs`. -/
def aggregationStep (env : Env) (d : Dict) : Except PyError Dict :=
  match pyIterList d "sitemap_locations_from_index" with
  | Except.error e => Except.error e
  | Except.ok locsIdx =>
      match childAgg env d locsIdx 0 with
      | Except.error e => Except.error e
      | Except.ok n1 =>
          match pyIterList d "sitemap_locations_from_robotstxt" with
          | Except.error e => Except.error e
          | Except.ok locsRob =>
              match childAgg env d locsRob n1 with
              | Except.error e => Except.error e
              | Except.ok n2 =>
                  match dget? d "Total URLs" with
                  | none => Except.error (PyError.keyError "Total URLs")
                  | some v =>
                      match pyAddNat v n2 with
                      | Except.error e => Except.error e
                      | Except.ok v2 => Except.ok (dset d "Total URLs" v2)

/-- Lines 156 to 159: when `results['Crawl delay']` is truthy, record
`int(results['Total URLs']) * int(results['Crawl delay']) / 3600` with true
(rational) division under `Est time to index`. -/
def estimateStep (d : Dict) : Except PyError Dict :=
  match dget? d "Crawl delay" with
  | none => Except.error (PyError.keyError "Crawl delay")
  | some cdv =>
      if pyTruthy cdv then
        match dget? d "Total URLs" with
        | none => Except.error (PyError.keyError "Total URLs")
        | some tv =>
            match pyInt tv with
            | Except.error e => Except.error e
            | Except.ok tn =>
                match pyInt cdv with
                | Except.error e => Except.error e
                | Except.ok cn =>
                    Except.ok (dset d "Est time to index"
                      (PyVal.rat ((tn : ℚ) * (cn : ℚ) / 3600)))
      else Except.ok d

/-- The function `sitemap_scan` (lines 72 to 162).  When the primary fetch
raised, line 98 (`if sitemap and ...`) reads the never-assigned local
`sitemap` and raises an unbound-name error. -/
def sitemap_scan (env : Env) (fqd : String) (results : Dict) : Except PyError Dict :=
  match sitemapFetchStep env fqd results with
  | (none, _) => Except.error (PyError.nameError "sitemap")
  | (some r, d1) =>
      match aggregationStep env (robotsStep env fqd (sitemapParseStep env r d1)) with
      | Except.error e => Except.error e
      | Except.ok d4 => estimateStep d4

/-- The accumulating state of `seo_scan`'s page loop: the freshly built result
dict and the running `titles` / `descriptions` lists (lines 188 to 190). -/
structure SeoState where
  results : Dict
  titles : List String
  descriptions : List String

/-- The message of the `AttributeError` raised by line 201 when the page has
no `title` tag (`find('title')` is `None`). -/
def attrMsg : String := "NoneType object has no attribute get_text"

/-- The message of the `KeyError` raised when a found meta tag has no
`content` attribute (lines 206 and 215). -/
def contentMsg : String := "content"

/-- Lines 208 to 212: first present tag among `article:published_time`,
`article:modified_time`, `DC.Date` (a present tag stops the chain even when it
has no `content` attribute). -/
def dateChain (doc : PageDoc) : Option (Option String) :=
  doc.publishedTime <|> doc.modifiedTime <|> doc.dcDate

/-- Lines 227 to 240, second half: the search-control check and the final page
entry, starting from the dict `r1` as left by the main-landmark check.
Reading a missing `Search found` key would raise a `KeyError`, caught by the
per-page handler. -/
def pageSearch (fqd page : String) (st : SeoState) (r1 : Dict) (doc : PageDoc)
    (title : String) (de : List String) (dv : Option String) : SeoState :=
  match dget? r1 "Search found" with
  | none =>
      { results := dset r1 page (PyVal.str (pageErr fqd page "Search found")),
        titles := st.titles ++ [title], descriptions := de }
  | some sv =>
      { results :=
          dset (if pyTruthy sv then r1
                else dset r1 "Search found" (PyVal.bool (doc.hasSearchInput || doc.hasSearchClass)))
            page (PyVal.pageEntry title doc.descriptionTag dv),
        titles := st.titles ++ [title], descriptions := de }

/-- Lines 217 to 240, first half: the main-landmark check (guarded by the
current truthiness of `Main tags found`), then the search check and store. -/
def pageFlags (fqd page : String) (st : SeoState) (doc : PageDoc)
    (title : String) (de : List String) (dv : Option String) : SeoState :=
  match dget? st.results "Main tags found" with
  | none =>
      { results := dset st.results page (PyVal.str (pageErr fqd page "Main tags found")),
        titles := st.titles ++ [title], descriptions := de }
  | some mv =>
      pageSearch fqd page st
        (if pyTruthy mv then st.results
         else dset st.results "Main tags found" (PyVal.bool (doc.hasMain || doc.hasRoleMain)))
        doc title de dv

/-- Lines 207 to 240 for a page whose title was extracted: the date chain
(whose `content` access can raise, caught into a page error string), then the
flag checks and the page entry. -/
def pageParsed (fqd page : String) (st : SeoState) (doc : PageDoc)
    (title : String) (de : List String) : SeoState :=
  match dateChain doc with
  | some none =>
      { results := dset st.results page (PyVal.str (pageErr fqd page contentMsg)),
        titles := st.titles ++ [title], descriptions := de }
  | some (some s) => pageFlags fqd page st doc title de (some s)
  | none => pageFlags fqd page st doc title de none

/-- Lines 192 to 242: process one page.  Every exception inside the loop body
is caught and turns the page's entry into an error string; a non-OK status
stores `'404'` and skips the page. -/
def pageStep (env : Env) (fqd : String) (st : SeoState) (page : String) : SeoState :=
  match env.get (fqd ++ page) with
  | FetchResult.exc msg =>
      { st with results := dset st.results page (PyVal.str (pageErr fqd page msg)) }
  | FetchResult.resp r =>
      if r.status_code = 200 then
        match (env.parsePage r.text).title with
        | none =>
            { st with results := dset st.results page (PyVal.str (pageErr fqd page attrMsg)) }
        | some title =>
            match (env.parsePage r.text).descriptionTag with
            | some none =>
                { results := dset st.results page (PyVal.str (pageErr fqd page contentMsg)),
                  titles := st.titles ++ [title], descriptions := st.descriptions }
            | some (some c) =>
                pageParsed fqd page st (env.parsePage r.text) title (st.descriptions ++ [c])
            | none =>
                pageParsed fqd page st (env.parsePage r.text) title st.descriptions
      else { st with results := dset st.results page (PyVal.str "404") }

/-- The `for page in pages` loop of `seo_scan`. -/
def pageLoop (env : Env) (fqd : String) : List String → SeoState → SeoState
  | [], st => st
  | p :: rest, st => pageLoop env fqd rest (pageStep env fqd st p)

/-- Line 247 and 249: `results['warnings'][w] = True`.  The fresh dict holds
its warnings under `'Warnings'`, so the lowercase lookup raises `KeyError`. -/
def setWarn (d : Dict) (w : String) : Except PyError Dict :=
  match dget? d "warnings" with
  | none => Except.error (PyError.keyError "warnings")
  | some (PyVal.dict es) => Except.ok (dset d "warnings" (PyVal.dict (wset es w)))
  | some _ => Except.error PyError.typeError

/-- Lines 245 to 249: the two independent duplicate checks. -/
def warnStep (st : SeoState) : Except PyError Dict :=
  match (if hasDup st.titles then setWarn st.results "Duplicate titles found"
         else Except.ok st.results) with
  | Except.error e => Except.error e
  | Except.ok d1 =>
      if hasDup st.descriptions then setWarn d1 "Duplicate descriptions found"
      else Except.ok d1

/-- Lines 175 to 180: the fresh dict `seo_scan` rebinds `results` to,
discarding whatever record it was passed. -/
def seoInit : Dict :=
  [("Platforms", PyVal.str "Unknown"),
   ("Main tags found", PyVal.bool false),
   ("Search found", PyVal.bool false),
   ("Warnings", PyVal.dict [])]

/-- The function `seo_scan` (lines 165 to 253).  Note line 175 rebinds
`results` to a fresh dict, so the `results` argument is ignored. -/
def seo_scan (env : Env) (fqd : String) (results : Dict) : Except PyError Dict :=
  warnStep (pageLoop env fqd pages
    { results :=
        (match env.builtwith fqd with
         | some fw => dset seoInit "Platforms" (PyVal.list fw)
         | none => seoInit),
      titles := [], descriptions := [] })

/-- The function `scan` (lines 256 to 270): run the sitemap pass on the shared
`scan_data` record, then the page pass on its result. -/
def scan (env : Env) (domain : String) : Except PyError Dict :=
  match sitemap_scan env ("https://" ++ domain) scan_data with
  | Except.error e => Except.error e
  | Except.ok sres => seo_scan env ("https://" ++ domain) sres

/-- A `Bool` view of whether a run ended in a `KeyError`. -/
def isKeyError : Except PyError Dict → Bool
  | Except.error (PyError.keyError _) => true
  | _ => false

/-- A sitemap document with no url entries and no index. -/
def emptyDoc : SitemapDoc := { urlTexts := [], hasSitemapIndex := false, indexLocs := [] }

/-- A page with no title, no metadata and no landmarks. -/
def emptyPage : PageDoc :=
  { title := none, descriptionTag := none, publishedTime := none, modifiedTime := none,
    dcDate := none, hasMain := false, hasRoleMain := false, hasSearchInput := false,
    hasSearchClass := false }

/-- An OK response at the given final URL with the given body. -/
def respOf200 (url body : String) : FetchResult :=
  FetchResult.resp { status_code := 200, url := url, text := body }

/-- A page titled "Home". -/
def pageHome : PageDoc := { emptyPage with title := some "Home" }

/-- A page titled "Privacy Policy". -/
def pagePrivacy : PageDoc := { emptyPage with title := some "Privacy Policy" }

/-- Environment where every fetch raises (network down). -/
def envDown : Env :=
  { get := fun _ => FetchResult.exc "connection refused",
    parseSitemap := fun _ => emptyDoc, parsePage := fun _ => emptyPage,
    builtwith := fun _ => none }

/-- Environment for a full successful `scan` of `example.com`: the sitemap is
OK with two plain urls under a sitemap-index root with no children, and the
two audited pages have distinct titles. -/
def envFull : Env :=
  { get := fun u =>
      if u = "https://example.com/sitemap.xml" then
        respOf200 "https://example.com/sitemap.xml" "smbody"
      else if u = "https://example.com/" then respOf200 "https://example.com/" "p1"
      else if u = "https://example.com/privacy" then
        respOf200 "https://example.com/privacy" "p2"
      else FetchResult.exc "no route",
    parseSitemap := fun _ =>
      { urlTexts := ["https://example.com/a", "https://example.com/b"],
        hasSitemapIndex := true, indexLocs := [] },
    parsePage := fun b => if b = "p1" then pageHome else if b = "p2" then pagePrivacy
      else emptyPage,
    builtwith := fun _ => none }

/-- Environment whose sitemap body is also a robots body declaring
`Crawl-delay: 5` (the robots step fetches the same URL). -/
def envDelay : Env :=
  { get := fun u =>
      if u = "https://d4.test/sitemap.xml" then
        respOf200 "https://d4.test/sitemap.xml" "Crawl-delay: 5"
      else FetchResult.exc "no route",
    parseSitemap := fun _ => { urlTexts := [], hasSitemapIndex := true, indexLocs := [] },
    parsePage := fun _ => emptyPage, builtwith := fun _ => none }

/-- Environment whose primary sitemap has three url entries and no children. -/
def envThree : Env :=
  { get := fun u =>
      if u = "https://d5.test/sitemap.xml" then
        respOf200 "https://d5.test/sitemap.xml" "b5"
      else FetchResult.exc "no route",
    parseSitemap := fun _ => { urlTexts := ["x", "y", "z"], hasSitemapIndex := true,
                               indexLocs := [] },
    parsePage := fun _ => emptyPage, builtwith := fun _ => none }

/-- Environment whose robots body declares two crawl delays, 5 then 10. -/
def envTwoDelays : Env :=
  { get := fun _ => respOf200 "u" "Crawl-delay: 5\nCrawl-delay: 10",
    parseSitemap := fun _ => emptyDoc, parsePage := fun _ => emptyPage,
    builtwith := fun _ => none }

/-- Environment whose robots body declares a crawl delay in upper case. -/
def envUpper : Env :=
  { get := fun _ => respOf200 "u" "CRAWL-DELAY: 7",
    parseSitemap := fun _ => emptyDoc, parsePage := fun _ => emptyPage,
    builtwith := fun _ => none }

/-- Environment where both audited pages are titled "Home". -/
def envDupTitles : Env :=
  { get := fun u =>
      if u = "https://x.test/" then respOf200 "https://x.test/" "h1"
      else if u = "https://x.test/privacy" then respOf200 "https://x.test/privacy" "h2"
      else FetchResult.exc "no route",
    parseSitemap := fun _ => emptyDoc, parsePage := fun _ => pageHome,
    builtwith := fun _ => none }

/-- Environment where the audited pages are titled "Home" and
"Privacy Policy". -/
def envDistinctTitles : Env :=
  { get := fun u =>
      if u = "https://x.test/" then respOf200 "https://x.test/" "h1"
      else if u = "https://x.test/privacy" then respOf200 "https://x.test/privacy" "h2"
      else FetchResult.exc "no route",
    parseSitemap := fun _ => emptyDoc,
    parsePage := fun b => if b = "h1" then pageHome else pagePrivacy,
    builtwith := fun _ => none }

/-- Environment for the child-sitemap loop: one extra child sitemap with one
url entry. -/
def envChild : Env :=
  { get := fun u =>
      if u = "https://s.test/extra.xml" then respOf200 "https://s.test/extra.xml" "c9"
      else FetchResult.exc "no route",
    parseSitemap := fun _ => { urlTexts := ["p"], hasSitemapIndex := false, indexLocs := [] },
    parsePage := fun _ => emptyPage, builtwith := fun _ => none }

/-- A record as left by a primary fetch whose final URL was
`https://s.test/sitemap.xml`. -/
def dChild : Dict := [("final_url", PyVal.str "https://s.test/sitemap.xml")]

/-- Environment whose primary sitemap fetch returns 404. -/
def envNotFound : Env :=
  { get := fun u =>
      if u = "https://w.test/sitemap.xml" then
        FetchResult.resp { status_code := 404, url := "https://w.test/sitemap.xml", text := "" }
      else FetchResult.exc "no route",
    parseSitemap := fun _ => emptyDoc, parsePage := fun _ => emptyPage,
    builtwith := fun _ => none }

/-- A state whose record already has both landmark flags truthy. -/
def stFlags : SeoState :=
  { results := [("Main tags found", PyVal.bool true), ("Search found", PyVal.bool true)],
    titles := [], descriptions := [] }

theorem dget?_dset_self (d : Dict) (k : String) (v : PyVal) :
    dget? (dset d k v) k = some v := by
  induction d with
  | nil => simp [dget?, dset]
  | cons kv rest ih =>
      obtain ⟨k1, v1⟩ := kv
      by_cases h : k1 = k
      · simp [dget?, dset, h]
      · simp [dget?, dset, h, ih]

theorem dget?_dset_ne (d : Dict) (k k2 : String) (v : PyVal) (h : k2 ≠ k) :
    dget? (dset d k v) k2 = dget? d k2 := by
  have hne : k ≠ k2 := fun hc => h hc.symm
  induction d with
  | nil => simp [dget?, dset, hne]
  | cons kv rest ih =>
      obtain ⟨k1, v1⟩ := kv
      by_cases h1 : k1 = k
      · subst h1
        simp [dget?, dset, hne]
      · by_cases h2 : k1 = k2
        · simp [dget?, dset, h1, h2, h]
        · simp [dget?, dset, h1, h2, ih]

theorem truthyAt_of_dget? (d : Dict) (k : String) (v : PyVal)
    (h : dget? d k = some v) : truthyAt d k = pyTruthy v := by
  unfold truthyAt
  rw [h]

theorem truthyAt_dset_of_truthy (d : Dict) (p k : String) (v : PyVal)
    (hv : pyTruthy v = true) (h : truthyAt d k = true) :
    truthyAt (dset d p v) k = true := by
  by_cases hpk : k = p
  · subst hpk
    unfold truthyAt
    rw [dget?_dset_self]
    exact hv
  · unfold truthyAt at h ⊢
    rw [dget?_dset_ne d p k v hpk]
    exact h

theorem truthyAt_dset_guarded (d : Dict) (p k : String) (v : PyVal)
    (hp : truthyAt d p = false) (h : truthyAt d k = true) :
    truthyAt (dset d p v) k = true := by
  by_cases hpk : k = p
  · subst hpk
    rw [h] at hp
    exact absurd hp (by simp)
  · unfold truthyAt at h ⊢
    rw [dget?_dset_ne d p k v hpk]
    exact h

theorem pageErr_length (f p m : String) :
    (pageErr f p m).length = 24 + f.length + p.length + 2 + m.length := by
  unfold pageErr
  rw [String.length_append, String.length_append, String.length_append,
    String.length_append]
  rfl

theorem childAgg_cons (env : Env) (d : Dict) (loc : String) (rest : List String)
    (acc : Nat) :
    childAgg env d (loc :: rest) acc =
      (match dget? d "final_url" with
       | none => Except.error (PyError.keyError "final_url")
       | some fv =>
           if pyStrNe loc fv then
             match env.get loc with
             | FetchResult.exc msg => Except.error (PyError.netError msg)
             | FetchResult.resp r =>
                 childAgg env d rest
                   (if r.status_code = 200 then acc + (env.parseSitemap r.text).urlTexts.length
                    else acc)
           else childAgg env d rest acc) :=
  rfl

theorem childFetches_cons (env : Env) (d : Dict) (loc : String) (rest : List String) :
    childFetches env d (loc :: rest) =
      (match dget? d "final_url" with
       | none => []
       | some fv =>
           if pyStrNe loc fv then
             match env.get loc with
             | FetchResult.exc _ => [loc]
             | FetchResult.resp _ => loc :: childFetches env d rest
           else childFetches env d rest) :=
  rfl

theorem pageErr_truthy (f p m : String) :
    pyTruthy (PyVal.str (pageErr f p m)) = true := by
  have hlen := pageErr_length f p m
  unfold pyTruthy
  simp only [decide_eq_true_eq]
  intro he
  rw [he] at hlen
  simp at hlen
  omega

theorem pageSearch_preserves (fqd page k : String) (st : SeoState) (r1 : Dict)
    (doc : PageDoc) (title : String) (de : List String) (dv : Option String)
    (h : truthyAt r1 k = true) :
    truthyAt (pageSearch fqd page st r1 doc title de dv).results k = true := by
  unfold pageSearch
  cases hs : dget? r1 "Search found" with
  | none => exact truthyAt_dset_of_truthy r1 page k _ (pageErr_truthy fqd page _) h
  | some sv =>
      dsimp only
      by_cases hsv : pyTruthy sv = true
      · rw [if_pos hsv]
        exact truthyAt_dset_of_truthy r1 page k _ rfl h
      · rw [if_neg hsv]
        have hfalse : truthyAt r1 "Search found" = false := by
          rw [truthyAt_of_dget? r1 _ sv hs]
          exact Bool.eq_false_iff.mpr hsv
        exact truthyAt_dset_of_truthy _ page k _ rfl
          (truthyAt_dset_guarded r1 "Search found" k _ hfalse h)

theorem pageFlags_preserves (fqd page k : String) (st : SeoState) (doc : PageDoc)
    (title : String) (de : List String) (dv : Option String)
    (h : truthyAt st.results k = true) :
    truthyAt (pageFlags fqd page st doc title de dv).results k = true := by
  unfold pageFlags
  cases hm : dget? st.results "Main tags found" with
  | none => exact truthyAt_dset_of_truthy st.results page k _ (pageErr_truthy fqd page _) h
  | some mv =>
      dsimp only
      by_cases hmv : pyTruthy mv = true
      · rw [if_pos hmv]
        exact pageSearch_preserves fqd page k st st.results doc title de dv h
      · rw [if_neg hmv]
        have hfalse : truthyAt st.results "Main tags found" = false := by
          rw [truthyAt_of_dget? st.results _ mv hm]
          exact Bool.eq_false_iff.mpr hmv
        exact pageSearch_preserves fqd page k st _ doc title de dv
          (truthyAt_dset_guarded st.results "Main tags found" k _ hfalse h)

theorem pageParsed_preserves (fqd page k : String) (st : SeoState) (doc : PageDoc)
    (title : String) (de : List String)
    (h : truthyAt st.results k = true) :
    truthyAt (pageParsed fqd page st doc title de).results k = true := by
  unfold pageParsed
  cases hd : dateChain doc with
  | none => exact pageFlags_preserves fqd page k st doc title de none h
  | some o =>
      cases o with
      | none => exact truthyAt_dset_of_truthy st.results page k _ (pageErr_truthy fqd page _) h
      | some s => exact pageFlags_preserves fqd page k st doc title de (some s) h

theorem pageStep_preserves (env : Env) (fqd page k : String) (st : SeoState)
    (h : truthyAt st.results k = true) :
    truthyAt (pageStep env fqd st page).results k = true := by
  unfold pageStep
  cases hg : env.get (fqd ++ page) with
  | exc msg => exact truthyAt_dset_of_truthy st.results page k _ (pageErr_truthy fqd page _) h
  | resp r =>
      dsimp only
      by_cases hs : r.status_code = 200
      · rw [if_pos hs]
        cases ht : (env.parsePage r.text).title with
        | none => exact truthyAt_dset_of_truthy st.results page k _ (pageErr_truthy fqd page _) h
        | some title =>
            cases hdt : (env.parsePage r.text).descriptionTag with
            | none => exact pageParsed_preserves fqd page k st _ title st.descriptions h
            | some o =>
                cases o with
                | none =>
                    exact truthyAt_dset_of_truthy st.results page k _
                      (pageErr_truthy fqd page _) h
                | some c =>
                    exact pageParsed_preserves fqd page k st _ title (st.descriptions ++ [c]) h
      · rw [if_neg hs]
        exact truthyAt_dset_of_truthy st.results page k _ (by decide) h

theorem pageLoop_preserves (env : Env) (fqd k : String) (ps : List String) :
    ∀ st : SeoState, truthyAt st.results k = true →
      truthyAt (pageLoop env fqd ps st).results k = true := by
  induction ps with
  | nil => intro st h; exact h
  | cons p rest ih =>
      intro st h
      exact ih (pageStep env fqd st p) (pageStep_preserves env fqd p k st h)

theorem dget?_pdfWrite_ne (doc : SitemapDoc) (d : Dict) (k : String)
    (h : k ≠ "pdfs_in_urls") : dget? (pdfWrite doc d) k = dget? d k := by
  unfold pdfWrite
  by_cases he : doc.urlTexts.isEmpty
  · rw [if_pos he]
  · rw [if_neg he, dget?_dset_ne _ _ _ _ h]

theorem dget?_robotsStep_ne (env : Env) (fqd : String) (d : Dict) (k : String)
    (h1 : k ≠ "robots") (h2 : k ≠ "crawl_delay") (h3 : k ≠ "sitemap_locations_from_robotstxt") :
    dget? (robotsStep env fqd d) k = dget? d k := by
  unfold robotsStep
  cases hg : env.get (robotsFetchUrl fqd) with
  | exc msg => rfl
  | resp robots =>
      dsimp only
      by_cases hs : robots.status_code = 200
      · rw [if_pos hs, dget?_dset_ne _ _ _ _ h3]
        unfold crawlDelayWrite
        cases hcd : pyFindall cdPat robots.text with
        | nil => exact dget?_dset_ne d _ _ _ h1
        | cons c rest => rw [dget?_dset_ne _ _ _ _ h2]; exact dget?_dset_ne d _ _ _ h1
      · rw [if_neg hs]
        exact dget?_dset_ne d _ _ _ h1

theorem dget?_sitemapParseStep_no_index (env : Env) (r : Response) (d : Dict)
    (hni : r.status_code ≠ 200 ∨ (env.parseSitemap r.text).hasSitemapIndex = false) :
    dget? (sitemapParseStep env r d) "sitemap_locations_from_index" =
      dget? d "sitemap_locations_from_index" := by
  unfold sitemapParseStep
  by_cases hs : r.status_code = 200
  · rw [if_pos hs]
    have hidx : (env.parseSitemap r.text).hasSitemapIndex = false := by
      rcases hni with hbad | hok
      · exact absurd hs hbad
      · exact hok
    unfold indexWrite
    rw [hidx, if_neg (by simp)]
    rw [dget?_pdfWrite_ne _ _ _ (by decide), dget?_dset_ne _ _ _ _ (by decide)]
  · rw [if_neg hs]

/-- C1: the claim says the robots.txt step requests `{base}/robots.txt`.  In
the code (line 117) that step requests `{base}/sitemap.xml` again: at the base
`https://example.com` the fetched URL is `https://example.com/sitemap.xml`,
which does not end in `/robots.txt`. -/
theorem robots_step_requests_sitemap_xml :
    robotsFetchUrl "https://example.com" = "https://example.com/sitemap.xml" ∧
    strEndsWith (robotsFetchUrl "https://example.com") "/robots.txt" = false :=
  ⟨rfl, by decide⟩

/-- C2: when the primary sitemap fetch raises, the handler does record the
descriptive error string under `status_code`, but `sitemap_scan` then raises
an unbound-name error at line 98 (`if sitemap`) instead of running to
completion, because the local `sitemap` was never assigned. -/
theorem sitemap_fetch_error_recorded_then_nameerror :
    dget? (sitemapFetchStep envDown "https://e.test" scan_data).2 "status_code" =
      some (PyVal.str
        "Could not get data from https://e.test/sitemap.xml: connection refused") ∧
    sitemap_scan envDown "https://e.test" scan_data =
      Except.error (PyError.nameError "sitemap") :=
  ⟨rfl, rfl⟩

/-- C3: `seo_scan` rebinds `results` to a fresh dict (line 175), so its output
never depends on the record it is passed, and the final record of `scan`
contains none of the fields the sitemap pass populated, even though the
sitemap pass did populate them (here `url_tag_count = 2`). -/
theorem seo_scan_discards_sitemap_fields :
    (∀ (env : Env) (fqd : String) (d1 d2 : Dict), seo_scan env fqd d1 = seo_scan env fqd d2) ∧
    (sitemap_scan envFull "https://example.com" scan_data).map
        (fun d => dget? d "url_tag_count") = Except.ok (some (PyVal.int 2)) ∧
    (scan envFull "example.com").map
        (fun d => (dget? d "url_tag_count", dget? d "Total URLs", dget? d "status_code")) =
      Except.ok (none, none, none) :=
  ⟨fun _ _ _ _ => rfl, rfl, rfl⟩

/-- C4: the crawl delay found in the robots body is stored under the key
`crawl_delay` (line 128) but the estimate step reads the key `Crawl delay`
(line 157), which stays `None`; so even on a scan that found a delay the
`Est time to index` field stays `"Unknown"`.  The arithmetic itself is exact:
feeding the estimate step a record whose `Crawl delay` key is set to "5" with
720 total URLs yields exactly 1. -/
theorem est_time_to_index_never_computed :
    (sitemap_scan envDelay "https://d4.test" scan_data).map
        (fun d => (dget? d "crawl_delay", dget? d "Est time to index", dget? d "Crawl delay")) =
      Except.ok (some (PyVal.str "5"), some (PyVal.str "Unknown"), some PyVal.pyNone) ∧
    (estimateStep [("Crawl delay", PyVal.str "5"), ("Total URLs", PyVal.int 720),
        ("Est time to index", PyVal.str "Unknown")]).map
        (fun d => dget? d "Est time to index") = Except.ok (some (PyVal.rat 1)) := by
  refine ⟨rfl, ?_⟩
  have hstep : estimateStep [("Crawl delay", PyVal.str "5"), ("Total URLs", PyVal.int 720),
      ("Est time to index", PyVal.str "Unknown")] =
      Except.ok [("Crawl delay", PyVal.str "5"), ("Total URLs", PyVal.int 720),
        ("Est time to index", PyVal.rat (((720 : Int) : ℚ) * ((5 : Int) : ℚ) / 3600))] := rfl
  have hv : ((720 : Int) : ℚ) * ((5 : Int) : ℚ) / 3600 = 1 := by norm_num
  rw [hstep, hv]
  rfl

/-- C5: the primary sitemap's url count is stored under `url_tag_count` (line
103) and never added into `Total URLs` (line 153 adds only the child tally
onto the initial 0), so a primary sitemap with three urls and no children
ends with `Total URLs = 0 < 3 = url_tag_count`, contradicting
`total_url_count = sitemap_item_count + additional_urls` and the claimed
`total_url_count ≥ sitemap_item_count`. -/
theorem total_urls_omits_primary_count :
    (sitemap_scan envThree "https://d5.test" scan_data).map
        (fun d => (dget? d "url_tag_count", dget? d "Total URLs")) =
      Except.ok (some (PyVal.int 3), some (PyVal.int 0)) :=
  rfl

/-- C6 counterexample: under the claim's reading ("case-insensitively on the
words crawl and delay") the body `CRAWL-DELAY: 7` yields a crawl delay of 7,
but the code's pattern `[cC]rawl-[dD]elay: ` is case-insensitive only in the
first letter of each word, matches nothing here, and records no
`crawl_delay`. -/
theorem crawl_delay_not_fully_case_insensitive :
    specFindallCD "CRAWL-DELAY: 7" = ["7"] ∧
    pyFindall cdPat "CRAWL-DELAY: 7" = [] ∧
    dget? (robotsStep envUpper "https://c.test" []) "crawl_delay" = none :=
  ⟨rfl, rfl, rfl⟩

/-- C6 amended: crawl-delay extraction matches `[cC]rawl-[dD]elay: <value>`
lines (only the first letter of each word is case-insensitive) and records
exactly the first match, ignoring later ones. -/
theorem crawl_delay_first_match (env : Env) (fqd : String) (d : Dict) (robots : Response)
    (hget : env.get (robotsFetchUrl fqd) = FetchResult.resp robots)
    (hok : robots.status_code = 200) (c : String) (rest : List String)
    (hcd : pyFindall cdPat robots.text = c :: rest) :
    dget? (robotsStep env fqd d) "crawl_delay" = some (PyVal.str c) := by
  unfold robotsStep
  rw [hget]
  dsimp only
  rw [if_pos hok, dget?_dset_ne _ _ _ _ (by decide)]
  unfold crawlDelayWrite
  rw [hcd]
  exact dget?_dset_self _ _ _

/-- Witness for C6 amended: the body `Crawl-delay: 5` then `Crawl-delay: 10`
yields the matches `["5", "10"]` and the recorded delay is the first, "5". -/
theorem crawl_delay_first_match_witness :
    pyFindall cdPat "Crawl-delay: 5\nCrawl-delay: 10" = ["5", "10"] ∧
    dget? (robotsStep envTwoDelays "https://b.test" []) "crawl_delay" =
      some (PyVal.str "5") :=
  ⟨rfl, crawl_delay_first_match envTwoDelays "https://b.test" []
      { status_code := 200, url := "u", text := "Crawl-delay: 5\nCrawl-delay: 10" }
      rfl rfl "5" ["10"] rfl⟩

/-- C7: with both audited pages titled "Home" the duplicate check writes into
`results['warnings']`, but the fresh record keeps its warnings under
`'Warnings'`, so `seo_scan` raises `KeyError` instead of recording the
warning; with distinct titles it returns, the `Warnings` entry stays empty
and no lowercase `warnings` key exists. -/
theorem duplicate_titles_raise_keyerror :
    seo_scan envDupTitles "https://x.test" scan_data =
      Except.error (PyError.keyError "warnings") ∧
    (seo_scan envDistinctTitles "https://x.test" scan_data).map
        (fun d => (dget? d "Warnings", dget? d "warnings")) =
      Except.ok (some (PyVal.dict []), none) :=
  ⟨rfl, rfl⟩

/-- C8: within one domain's page-audit pass the two flags are monotonic: for
any environment, any base URL, and any sequence of audited pages, a state in
which `Main tags found` (resp. `Search found`) is already truthy keeps it
truthy after the whole page loop. -/
theorem landmark_flags_monotonic (env : Env) (fqd : String) (ps : List String)
    (st : SeoState) :
    (truthyAt st.results "Main tags found" = true →
      truthyAt (pageLoop env fqd ps st).results "Main tags found" = true) ∧
    (truthyAt st.results "Search found" = true →
      truthyAt (pageLoop env fqd ps st).results "Search found" = true) :=
  ⟨fun h => pageLoop_preserves env fqd "Main tags found" ps st h,
   fun h => pageLoop_preserves env fqd "Search found" ps st h⟩

/-- Witness for C8 at a concrete state with both flags true and the fixed
page list. -/
theorem landmark_flags_monotonic_witness :
    truthyAt stFlags.results "Main tags found" = true ∧
    truthyAt stFlags.results "Search found" = true ∧
    truthyAt (pageLoop envDown "https://m.test" pages stFlags).results
      "Main tags found" = true ∧
    truthyAt (pageLoop envDown "https://m.test" pages stFlags).results
      "Search found" = true :=
  ⟨rfl, rfl,
   (landmark_flags_monotonic envDown "https://m.test" pages stFlags).1 rfl,
   (landmark_flags_monotonic envDown "https://m.test" pages stFlags).2 rfl⟩

/-- C9: the child-sitemap loop never touches a location equal to the stored
`final_url`: the aggregated count is the same as over the list with those
locations removed, and the fetch trace never contains the final URL. -/
theorem child_loop_skips_final_url (env : Env) (d : Dict) (fu : String)
    (h : dget? d "final_url" = some (PyVal.str fu)) (locs : List String) (acc : Nat) :
    childAgg env d locs acc = childAgg env d (locs.filter (fun l => l != fu)) acc ∧
    fu ∉ childFetches env d locs := by
  induction locs generalizing acc with
  | nil => exact ⟨rfl, by simp [childFetches]⟩
  | cons loc rest ih =>
      by_cases hl : loc = fu
      · subst hl
        have hstep : childAgg env d (loc :: rest) acc = childAgg env d rest acc := by
          rw [childAgg_cons, h]
          dsimp only [pyStrNe]
          rw [if_neg (by simp)]
        have hfetch : childFetches env d (loc :: rest) = childFetches env d rest := by
          rw [childFetches_cons, h]
          dsimp only [pyStrNe]
          rw [if_neg (by simp)]
        have hfil : List.filter (fun l => l != loc) (loc :: rest) =
            List.filter (fun l => l != loc) rest := by
          simp [List.filter_cons]
        rw [hstep, hfetch, hfil]
        exact ih acc
      · have hne : (loc != fu) = true := bne_iff_ne.mpr hl
        have hfil : List.filter (fun l => l != fu) (loc :: rest) =
            loc :: List.filter (fun l => l != fu) rest := by
          simp [List.filter_cons, hne]
        have hLHS : childAgg env d (loc :: rest) acc =
            (match env.get loc with
             | FetchResult.exc msg => Except.error (PyError.netError msg)
             | FetchResult.resp r =>
                 childAgg env d rest
                   (if r.status_code = 200 then acc + (env.parseSitemap r.text).urlTexts.length
                    else acc)) := by
          rw [childAgg_cons, h]
          dsimp only [pyStrNe]
          rw [if_pos hne]
        have hFet : childFetches env d (loc :: rest) =
            (match env.get loc with
             | FetchResult.exc _ => [loc]
             | FetchResult.resp _ => loc :: childFetches env d rest) := by
          rw [childFetches_cons, h]
          dsimp only [pyStrNe]
          rw [if_pos hne]
        have hRHS : childAgg env d (List.filter (fun l => l != fu) (loc :: rest)) acc =
            (match env.get loc with
             | FetchResult.exc msg => Except.error (PyError.netError msg)
             | FetchResult.resp r =>
                 childAgg env d (List.filter (fun l => l != fu) rest)
                   (if r.status_code = 200 then acc + (env.parseSitemap r.text).urlTexts.length
                    else acc)) := by
          rw [hfil, childAgg_cons, h]
          dsimp only [pyStrNe]
          rw [if_pos hne]
        rw [hLHS, hRHS, hFet]
        cases hg : env.get loc with
        | exc msg =>
            dsimp only
            refine ⟨rfl, ?_⟩
            simp only [List.mem_singleton]
            exact fun hc => hl hc.symm
        | resp r =>
            dsimp only
            refine ⟨(ih _).1, ?_⟩
            simp only [List.mem_cons, not_or]
            exact ⟨fun hc => hl hc.symm, (ih acc).2⟩

/-- Witness for C9: a record whose final URL is `https://s.test/sitemap.xml`
and a child list repeating that URL before a genuine child. -/
theorem child_loop_skips_final_url_witness :
    dget? dChild "final_url" = some (PyVal.str "https://s.test/sitemap.xml") ∧
    (childAgg envChild dChild
        ["https://s.test/sitemap.xml", "https://s.test/extra.xml"] 0 =
      childAgg envChild dChild
        (["https://s.test/sitemap.xml", "https://s.test/extra.xml"].filter
          (fun l => l != "https://s.test/sitemap.xml")) 0 ∧
     "https://s.test/sitemap.xml" ∉
        childFetches envChild dChild
          ["https://s.test/sitemap.xml", "https://s.test/extra.xml"]) :=
  ⟨rfl, child_loop_skips_final_url envChild dChild "https://s.test/sitemap.xml" rfl
      ["https://s.test/sitemap.xml", "https://s.test/extra.xml"] 0⟩

/-- C10 counterexample: in the claim's "fetch failed" case the run does not
end in a key-lookup error: the unbound local `sitemap` at line 98 raises a
name error first. -/
theorem fetch_failure_gives_nameerror_not_keyerror :
    sitemap_scan envDown "https://a.test" scan_data =
      Except.error (PyError.nameError "sitemap") ∧
    isKeyError (sitemap_scan envDown "https://a.test" scan_data) = false :=
  ⟨rfl, rfl⟩

/-- C10 amended: starting from the fresh `scan_data` record, whenever the
primary fetch RETURNS a response that is not an OK sitemap-index document
(non-OK status, or OK but no sitemap-index root), the child-list key
`sitemap_locations_from_index` is never written and the aggregation step's
unconditional read raises `KeyError`; in the fetch-failure case the run
aborts earlier with the unbound-name error instead. -/
theorem no_index_doc_raises_keyerror (env : Env) (fqd : String) (r : Response)
    (hget : env.get (fqd ++ "/sitemap.xml") = FetchResult.resp r)
    (hni : r.status_code ≠ 200 ∨ (env.parseSitemap r.text).hasSitemapIndex = false) :
    sitemap_scan env fqd scan_data =
      Except.error (PyError.keyError "sitemap_locations_from_index") := by
  have hstep : sitemapFetchStep env fqd scan_data =
      (some r, dset (dset scan_data "status_code" (PyVal.int r.status_code))
        "final_url" (PyVal.str r.url)) := by
    unfold sitemapFetchStep
    rw [hget]
  have hidx : dget? (robotsStep env fqd (sitemapParseStep env r
      (dset (dset scan_data "status_code" (PyVal.int r.status_code))
        "final_url" (PyVal.str r.url)))) "sitemap_locations_from_index" = none := by
    rw [dget?_robotsStep_ne env fqd _ _ (by decide) (by decide) (by decide)]
    rw [dget?_sitemapParseStep_no_index env r _ hni]
    rw [dget?_dset_ne _ _ _ _ (by decide), dget?_dset_ne _ _ _ _ (by decide)]
    rfl
  have hagg : aggregationStep env (robotsStep env fqd (sitemapParseStep env r
      (dset (dset scan_data "status_code" (PyVal.int r.status_code))
        "final_url" (PyVal.str r.url)))) =
      Except.error (PyError.keyError "sitemap_locations_from_index") := by
    unfold aggregationStep pyIterList
    rw [hidx]
  unfold sitemap_scan
  rw [hstep]
  dsimp only
  rw [hagg]

/-- Witness for C10 amended at the 404 environment. -/
theorem no_index_doc_raises_keyerror_witness :
    envNotFound.get ("https://w.test" ++ "/sitemap.xml") =
      FetchResult.resp { status_code := 404, url := "https://w.test/sitemap.xml", text := "" } ∧
    sitemap_scan envNotFound "https://w.test" scan_data =
      Except.error (PyError.keyError "sitemap_locations_from_index") :=
  ⟨rfl, no_index_doc_raises_keyerror envNotFound "https://w.test"
      { status_code := 404, url := "https://w.test/sitemap.xml", text := "" }
      rfl (Or.inl (by decide))⟩

end Seo
